import Mathlib

set_option maxRecDepth 100000

/-!
Shallow embedding of `scripts/generate-textures.py`, a batch texture
generator: for each (name, prompt) pair in a fixed table, skip when the
output file already exists, otherwise call an external image-generation
service once and persist the returned image bytes.

External effects are modelled by an `Env` record: whether the third-party
client library import succeeds, the credential environment variable, the
per-prompt service response, the URL download, the base64 decode, and the
file write. The filesystem is an association list from path to bytes.
The run result carries the exit code, the console log, the final
filesystem, whether the output directory was created, the success count,
and instrumentation lists recording every generation request, URL fetch
and base64 decode that was performed, plus the per-spec outcomes.
-/

/-- File contents: a list of byte values. -/
abbrev Bytes := List Nat

/-- The filesystem: an association list from path to file bytes. -/
abbrev FS := List (String × Bytes)

/-- Look a path up in the filesystem (`Path.exists` / file read). -/
def fsLookup : FS → String → Option Bytes
  | [], _ => none
  | (q, b) :: rest, p => if p = q then some b else fsLookup rest p

/-- Write a file (the script only writes paths that are absent). -/
def fsWrite (fs : FS) (p : String) (b : Bytes) : FS := (p, b) :: fs

/-- Per-spec terminal outcome, `already-present | saved | failed`. -/
inductive Outcome where
  | alreadyPresent
  | saved
  | failed
deriving DecidableEq, Repr

/-- The fields of `response.data[0]` that the script reads: an optional
image URL and an optional inline base64 payload (`none` also models a
missing attribute). -/
structure ImageData where
  url : Option String
  b64_json : Option String

/-- Result of `client.images.generate`: a normal response or a raised
exception carrying its message. -/
inductive ServiceResult where
  | ok (d : ImageData)
  | raise (e : String)

/-- Result of `urllib.request.urlretrieve url output_path`: the fetched
bytes (which urlretrieve writes to the output path) or a raised
exception. -/
inductive FetchResult where
  | ok (bytes : Bytes)
  | raise (e : String)

/-- The external world the script interacts with. -/
structure Env where
  importOk : Bool
  apiKey : Option String
  service : String → ServiceResult
  fetch : String → FetchResult
  b64decode : String → Except String Bytes
  writeErr : String → Bytes → Option String

/-- Python truthiness of an optional string: `None` and the empty string
are falsy. -/
def truthy : Option String → Bool
  | none => false
  | some s => s != ""

/-- The fixed output directory `public/textures/zones`. -/
def OUTPUT_DIR : String := "public/textures/zones"

/-- Deterministic output path `OUTPUT_DIR / f"{name}.png"`. -/
def outputPath (name : String) : String := OUTPUT_DIR ++ "/" ++ name ++ ".png"

/-- The fixed ordered table of texture prompts, in the insertion order of
the Python dict `TEXTURES`. -/
def TEXTURES : List (String × String) :=
  [ ("industrial_floor",
     "Seamless tileable industrial metal floor texture, dark steel plates with rust stains and oil marks, rivets and grating, worn metallic surface, top-down view, game asset, dark color scheme, 512x512 pixels"),
    ("industrial_wall",
     "Seamless tileable industrial wall texture, corrugated metal sheets with pipes and conduits running across, rust patches and grime, concrete sections, dark atmosphere, game asset, 512x512 pixels"),
    ("ritual_floor",
     "Seamless tileable dark stone floor texture with glowing purple mystical runes, ancient carved arcane symbols, candlewax stains, occult dungeon floor, dark purple and black color scheme, top-down view, game asset, 512x512 pixels"),
    ("ritual_wall",
     "Seamless tileable dark dungeon wall texture with carved arcane symbols, glowing purple crystalline veins in dark stone, mystical energy cracks, ancient masonry, game asset, 512x512 pixels"),
    ("organic_floor",
     "Seamless tileable dirty organic floor texture, mud and debris, scattered small bones and organic matter, nest materials like straw and fur, grimy dungeon floor, earthy brown and dark colors, top-down view, game asset, 512x512 pixels"),
    ("organic_wall",
     "Seamless tileable organic cave wall texture, earthy browns and dark colors, roots and vines growing through cracks, moisture stains, natural rock formation with organic growth, game asset, 512x512 pixels"),
    ("neutral_floor",
     "Seamless tileable clean stone floor texture, polished grey flagstones with minimal wear, orderly geometric pattern, safe room floor appearance, neutral grey tones, top-down view, game asset, 512x512 pixels"),
    ("neutral_wall",
     "Seamless tileable clean stone wall texture, well-maintained grey masonry blocks, minimal decoration, sturdy dungeon wall, neutral grey and brown tones, game asset, 512x512 pixels") ]

/-- Console line `  [SKIP] {name}.png already exists`. -/
def skipLine (name : String) : String := "  [SKIP] " ++ name ++ ".png already exists"

/-- Console line `  [GEN] {name}...`. -/
def genLine (name : String) : String := "  [GEN] " ++ name ++ "..."

/-- Console line `  [OK] Saved {name}.png`. -/
def okLine (name : String) : String := "  [OK] Saved " ++ name ++ ".png"

/-- Console line `  [ERR] Failed to generate {name}: {e}`. -/
def errLine (name e : String) : String := "  [ERR] Failed to generate " ++ name ++ ": " ++ e

/-- Console line `  [ERR] No image data in response`. -/
def noDataLine : String := "  [ERR] No image data in response"

/-- Result of one `generate_texture` call: the returned boolean, the
derived outcome, the lines printed, the filesystem afterwards, and the
generation requests, URL fetches and base64 decodes performed. -/
structure GenOut where
  ok : Bool
  outcome : Outcome
  log : List String
  fs : FS
  calls : List (String × String)
  fetches : List String
  decodes : List String

/-- Translation of `generate_texture(client, name, prompt)`. -/
def generate_texture (env : Env) (fs : FS) (name prompt : String) : GenOut :=
  let output_path := outputPath name
  match fsLookup fs output_path with
  | some _ =>
      ⟨true, .alreadyPresent, [skipLine name], fs, [], [], []⟩
  | none =>
      match env.service prompt with
      | .raise e =>
          ⟨false, .failed, [genLine name, errLine name e], fs, [(name, prompt)], [], []⟩
      | .ok d =>
          if truthy d.url then
            let u := d.url.getD ""
            match env.fetch u with
            | .ok bytes =>
                ⟨true, .saved, [genLine name, okLine name],
                 fsWrite fs output_path bytes, [(name, prompt)], [u], []⟩
            | .raise e =>
                ⟨false, .failed, [genLine name, errLine name e], fs, [(name, prompt)], [u], []⟩
          else if truthy d.b64_json then
            let s := d.b64_json.getD ""
            match env.b64decode s with
            | .error e =>
                ⟨false, .failed, [genLine name, errLine name e], fs, [(name, prompt)], [], [s]⟩
            | .ok image_data =>
                match env.writeErr output_path image_data with
                | some e =>
                    ⟨false, .failed, [genLine name, errLine name e], fs, [(name, prompt)], [], [s]⟩
                | none =>
                    ⟨true, .saved, [genLine name, okLine name],
                     fsWrite fs output_path image_data, [(name, prompt)], [], [s]⟩
          else
            ⟨false, .failed, [genLine name, noDataLine], fs, [(name, prompt)], [], []⟩

/-- Accumulated result of the `for name, prompt in TEXTURES.items()` loop. -/
structure BatchOut where
  successCount : Nat
  log : List String
  fs : FS
  calls : List (String × String)
  fetches : List String
  decodes : List String
  outcomes : List (String × Outcome)

/-- The sequential loop over the spec list, threading the filesystem. -/
def processSpecs (env : Env) (fs : FS) : List (String × String) → BatchOut
  | [] => ⟨0, [], fs, [], [], [], []⟩
  | (name, prompt) :: rest =>
      let g := generate_texture env fs name prompt
      let r := processSpecs env g.fs rest
      ⟨(if g.ok then 1 else 0) + r.successCount,
       g.log ++ r.log, r.fs, g.calls ++ r.calls, g.fetches ++ r.fetches,
       g.decodes ++ r.decodes, (name, g.outcome) :: r.outcomes⟩

/-- Console line printed by the import guard. -/
def importErrLine : String := "Error: openai package not installed. Run: pip install openai"

/-- First console line printed when the credential is missing. -/
def keyErrLine1 : String := "Error: OPENAI_API_KEY environment variable not set"

/-- Remediation console line printed when the credential is missing. -/
def keyErrLine2 : String := "Run: export OPENAI_API_KEY=\x27your-key-here\x27"

/-- Summary console line `Complete! Generated {n}/{len(TEXTURES)} textures`. -/
def summaryLine (n : Nat) : String :=
  "Complete! Generated " ++ toString n ++ "/" ++ toString TEXTURES.length ++ " textures"

/-- Guidance console line printed when some textures failed. -/
def guidanceLine : String := "Some textures failed. Re-run the script to retry failed ones."

/-- Result of one whole process run. -/
structure RunResult where
  exitCode : Nat
  log : List String
  fs : FS
  dirCreated : Bool
  successCount : Nat
  calls : List (String × String)
  fetches : List String
  decodes : List String
  outcomes : List (String × Outcome)

/-- Translation of the whole script: the module-level import guard
followed by `main()`; Lean reserves the name `main`, so it is `run`. -/
def run (env : Env) (fs : FS) : RunResult :=
  if !env.importOk then
    ⟨1, [importErrLine], fs, false, 0, [], [], [], []⟩
  else if !(truthy env.apiKey) then
    ⟨1, [keyErrLine1, keyErrLine2], fs, false, 0, [], [], [], []⟩
  else
    let b := processSpecs env fs TEXTURES
    ⟨0,
     ["Generating zone textures to: " ++ OUTPUT_DIR,
      "Total textures to generate: " ++ toString TEXTURES.length,
      ""] ++ b.log ++
     ["", summaryLine b.successCount] ++
     (if b.successCount < TEXTURES.length then [guidanceLine] else []),
     b.fs, true, b.successCount, b.calls, b.fetches, b.decodes, b.outcomes⟩

/-- Concrete world: the import succeeds, a credential is set, the
service always returns a fetchable URL, and every fetch succeeds. -/
def envURL : Env :=
  { importOk := true
    apiKey := some "sk-test"
    service := fun _ => .ok ⟨some "https://img.example/x.png", none⟩
    fetch := fun _ => .ok [7]
    b64decode := fun _ => .error "unused"
    writeErr := fun _ _ => none }

/-- Concrete world: the service returns only inline base64 data. -/
def envB64 : Env :=
  { envURL with
    service := fun _ => .ok ⟨none, some "QUJD"⟩
    b64decode := fun _ => .ok [65, 66, 67] }

/-- Concrete world: every generation request raises. -/
def envSvcRaise : Env := { envURL with service := fun _ => .raise "api error" }

/-- Concrete world: the response has a URL and inline data, but the URL
fetch raises. -/
def envFetchFail : Env :=
  { envURL with
    service := fun _ => .ok ⟨some "https://img.example/x.png", some "QUJD"⟩
    fetch := fun _ => .raise "network down" }

/-- Concrete world: the response carries neither URL nor inline data. -/
def envNoData : Env := { envURL with service := fun _ => .ok ⟨none, none⟩ }

/-- Concrete world: the credential variable is unset. -/
def envNoKey : Env := { envURL with apiKey := none }

/-- Concrete world: the client library import fails although a
credential is set. -/
def envNoImport : Env := { envURL with importOk := false }

/-- The prompt of the `ritual_wall` spec. -/
def ritualWallPrompt : String := (TEXTURES.getD 3 ("", "")).2

/-- The prompt of the `industrial_floor` spec. -/
def industrialFloorPrompt : String := (TEXTURES.getD 0 ("", "")).2

/-- Concrete world: the generation request raises for exactly the
`ritual_wall` spec and returns a fetchable URL for every other one. -/
def envOneFail : Env :=
  { envURL with
    service := fun p =>
      if p = ritualWallPrompt then .raise "boom"
      else .ok ⟨some "https://img.example/x.png", none⟩ }

/-- A filesystem with three of the eight output files already present. -/
def fsPre3 : FS :=
  [(outputPath "industrial_floor", [1]),
   (outputPath "ritual_floor", [2]),
   (outputPath "neutral_wall", [3])]

/-- A filesystem with one output file already present. -/
def fsPresent1 : FS := [(outputPath "industrial_floor", [9])]

/-- Looking up in a freshly written filesystem. -/
theorem fsLookup_fsWrite (fs : FS) (p q : String) (b : Bytes) :
    fsLookup (fsWrite fs q b) p = if p = q then some b else fsLookup fs p := rfl

/-- Branch computation: the output file already exists, so the spec is
skipped and nothing else happens. -/
theorem gen_skip (env : Env) (fs : FS) (name prompt : String) (b : Bytes)
    (h : fsLookup fs (outputPath name) = some b) :
    generate_texture env fs name prompt =
      ⟨true, .alreadyPresent, [skipLine name], fs, [], [], []⟩ := by
  simp [generate_texture, h]

/-- Branch computation: the generation request raises. -/
theorem gen_service_raise (env : Env) (fs : FS) (name prompt e : String)
    (h0 : fsLookup fs (outputPath name) = none)
    (hs : env.service prompt = .raise e) :
    generate_texture env fs name prompt =
      ⟨false, .failed, [genLine name, errLine name e], fs, [(name, prompt)], [], []⟩ := by
  simp [generate_texture, h0, hs]

/-- Branch computation: a truthy URL whose fetch succeeds. -/
theorem gen_url_ok (env : Env) (fs : FS) (name prompt : String) (d : ImageData)
    (bytes : Bytes)
    (h0 : fsLookup fs (outputPath name) = none)
    (hs : env.service prompt = .ok d)
    (hu : truthy d.url = true)
    (hf : env.fetch (d.url.getD "") = .ok bytes) :
    generate_texture env fs name prompt =
      ⟨true, .saved, [genLine name, okLine name],
       fsWrite fs (outputPath name) bytes, [(name, prompt)], [d.url.getD ""], []⟩ := by
  simp [generate_texture, h0, hs, hu, hf]

/-- Branch computation: a truthy URL whose fetch raises. -/
theorem gen_url_raise (env : Env) (fs : FS) (name prompt e : String) (d : ImageData)
    (h0 : fsLookup fs (outputPath name) = none)
    (hs : env.service prompt = .ok d)
    (hu : truthy d.url = true)
    (hf : env.fetch (d.url.getD "") = .raise e) :
    generate_texture env fs name prompt =
      ⟨false, .failed, [genLine name, errLine name e], fs, [(name, prompt)],
       [d.url.getD ""], []⟩ := by
  simp [generate_texture, h0, hs, hu, hf]

/-- Branch computation: no truthy URL, truthy inline data, decode and
write succeed. -/
theorem gen_b64_ok (env : Env) (fs : FS) (name prompt : String) (d : ImageData)
    (image_data : Bytes)
    (h0 : fsLookup fs (outputPath name) = none)
    (hs : env.service prompt = .ok d)
    (hu : truthy d.url = false)
    (hb : truthy d.b64_json = true)
    (hd : env.b64decode (d.b64_json.getD "") = .ok image_data)
    (hw : env.writeErr (outputPath name) image_data = none) :
    generate_texture env fs name prompt =
      ⟨true, .saved, [genLine name, okLine name],
       fsWrite fs (outputPath name) image_data, [(name, prompt)], [],
       [d.b64_json.getD ""]⟩ := by
  simp [generate_texture, h0, hs, hu, hb, hd, hw]

/-- Branch computation: no truthy URL, truthy inline data, decode raises. -/
theorem gen_b64_decode_raise (env : Env) (fs : FS) (name prompt e : String)
    (d : ImageData)
    (h0 : fsLookup fs (outputPath name) = none)
    (hs : env.service prompt = .ok d)
    (hu : truthy d.url = false)
    (hb : truthy d.b64_json = true)
    (hd : env.b64decode (d.b64_json.getD "") = .error e) :
    generate_texture env fs name prompt =
      ⟨false, .failed, [genLine name, errLine name e], fs, [(name, prompt)], [],
       [d.b64_json.getD ""]⟩ := by
  simp [generate_texture, h0, hs, hu, hb, hd]

/-- Branch computation: no truthy URL, truthy inline data, decode
succeeds but the file write raises. -/
theorem gen_b64_write_raise (env : Env) (fs : FS) (name prompt e : String)
    (d : ImageData) (image_data : Bytes)
    (h0 : fsLookup fs (outputPath name) = none)
    (hs : env.service prompt = .ok d)
    (hu : truthy d.url = false)
    (hb : truthy d.b64_json = true)
    (hd : env.b64decode (d.b64_json.getD "") = .ok image_data)
    (hw : env.writeErr (outputPath name) image_data = some e) :
    generate_texture env fs name prompt =
      ⟨false, .failed, [genLine name, errLine name e], fs, [(name, prompt)], [],
       [d.b64_json.getD ""]⟩ := by
  simp [generate_texture, h0, hs, hu, hb, hd, hw]

/-- Branch computation: the response has neither a truthy URL nor truthy
inline data. -/
theorem gen_no_data (env : Env) (fs : FS) (name prompt : String) (d : ImageData)
    (h0 : fsLookup fs (outputPath name) = none)
    (hs : env.service prompt = .ok d)
    (hu : truthy d.url = false)
    (hb : truthy d.b64_json = false) :
    generate_texture env fs name prompt =
      ⟨false, .failed, [genLine name, noDataLine], fs, [(name, prompt)], [], []⟩ := by
  simp [generate_texture, h0, hs, hu, hb]

/-- A file that is present is never touched by `generate_texture`:
writes only happen at paths whose lookup returned `none`. -/
theorem gen_preserves_present (env : Env) (fs : FS) (name prompt p : String)
    (b : Bytes) (h : fsLookup fs p = some b) :
    fsLookup (generate_texture env fs name prompt).fs p = some b := by
  cases h0 : fsLookup fs (outputPath name) with
  | some b2 =>
      rw [gen_skip env fs name prompt b2 h0]
      exact h
  | none =>
      have hp : p ≠ outputPath name := by
        intro he
        rw [he, h0] at h
        exact Option.noConfusion h
      cases hs : env.service prompt with
      | raise e =>
          rw [gen_service_raise env fs name prompt e h0 hs]
          exact h
      | ok d =>
          by_cases hu : truthy d.url
          · cases hf : env.fetch (d.url.getD "") with
            | ok bytes =>
                rw [gen_url_ok env fs name prompt d bytes h0 hs hu hf]
                simpa [fsLookup_fsWrite, hp] using h
            | raise e =>
                rw [gen_url_raise env fs name prompt e d h0 hs hu hf]
                exact h
          · rw [Bool.not_eq_true] at hu
            by_cases hb : truthy d.b64_json
            · cases hd : env.b64decode (d.b64_json.getD "") with
              | error e =>
                  rw [gen_b64_decode_raise env fs name prompt e d h0 hs hu hb hd]
                  exact h
              | ok image_data =>
                  cases hw : env.writeErr (outputPath name) image_data with
                  | some e =>
                      rw [gen_b64_write_raise env fs name prompt e d image_data
                            h0 hs hu hb hd hw]
                      exact h
                  | none =>
                      rw [gen_b64_ok env fs name prompt d image_data h0 hs hu hb hd hw]
                      simpa [fsLookup_fsWrite, hp] using h
            · rw [Bool.not_eq_true] at hb
              rw [gen_no_data env fs name prompt d h0 hs hu hb]
              exact h

/-- Every generation request recorded by `generate_texture` is tagged
with the spec being processed. -/
theorem gen_calls_fst (env : Env) (fs : FS) (name prompt : String) :
    ∀ c ∈ (generate_texture env fs name prompt).calls, c.1 = name := by
  intro c hc
  cases h0 : fsLookup fs (outputPath name) with
  | some b2 =>
      rw [gen_skip env fs name prompt b2 h0] at hc
      simp at hc
  | none =>
      cases hs : env.service prompt with
      | raise e =>
          rw [gen_service_raise env fs name prompt e h0 hs] at hc
          simp at hc
          simp [hc]
      | ok d =>
          by_cases hu : truthy d.url
          · cases hf : env.fetch (d.url.getD "") with
            | ok bytes =>
                rw [gen_url_ok env fs name prompt d bytes h0 hs hu hf] at hc
                simp at hc
                simp [hc]
            | raise e =>
                rw [gen_url_raise env fs name prompt e d h0 hs hu hf] at hc
                simp at hc
                simp [hc]
          · rw [Bool.not_eq_true] at hu
            by_cases hb : truthy d.b64_json
            · cases hd : env.b64decode (d.b64_json.getD "") with
              | error e =>
                  rw [gen_b64_decode_raise env fs name prompt e d h0 hs hu hb hd] at hc
                  simp at hc
                  simp [hc]
              | ok image_data =>
                  cases hw : env.writeErr (outputPath name) image_data with
                  | some e =>
                      rw [gen_b64_write_raise env fs name prompt e d image_data
                            h0 hs hu hb hd hw] at hc
                      simp at hc
                      simp [hc]
                  | none =>
                      rw [gen_b64_ok env fs name prompt d image_data h0 hs hu hb hd hw] at hc
                      simp at hc
                      simp [hc]
            · rw [Bool.not_eq_true] at hb
              rw [gen_no_data env fs name prompt d h0 hs hu hb] at hc
              simp at hc
              simp [hc]

/-- A file that is present before the loop is present with the same
bytes after it: no iteration overwrites an existing file. -/
theorem processSpecs_preserves_present (env : Env) :
    ∀ (specs : List (String × String)) (fs : FS) (p : String) (b : Bytes),
      fsLookup fs p = some b →
      fsLookup (processSpecs env fs specs).fs p = some b := by
  intro specs
  induction specs with
  | nil =>
      intro fs p b h
      simpa [processSpecs] using h
  | cons hd tl ih =>
      intro fs p b h
      obtain ⟨name, prompt⟩ := hd
      simp only [processSpecs]
      exact ih _ _ _ (gen_preserves_present env fs name prompt p b h)

/-- The recorded outcomes are keyed by exactly the spec names, in the
iteration order of the spec list. -/
theorem processSpecs_outcomes_fst (env : Env) :
    ∀ (specs : List (String × String)) (fs : FS),
      (processSpecs env fs specs).outcomes.map Prod.fst = specs.map Prod.fst := by
  intro specs
  induction specs with
  | nil => intro fs; simp [processSpecs]
  | cons hd tl ih =>
      intro fs
      obtain ⟨name, prompt⟩ := hd
      simp only [processSpecs, List.map_cons]
      rw [ih]

/-- Every generation request recorded by the loop is tagged with one of
the spec names of the list. -/
theorem processSpecs_calls_fst (env : Env) :
    ∀ (specs : List (String × String)) (fs : FS) (c : String × String),
      c ∈ (processSpecs env fs specs).calls → c.1 ∈ specs.map Prod.fst := by
  intro specs
  induction specs with
  | nil => intro fs c hc; simp [processSpecs] at hc
  | cons hd tl ih =>
      intro fs c hc
      obtain ⟨name, prompt⟩ := hd
      simp only [processSpecs, List.mem_append] at hc
      rw [List.map_cons]
      rcases hc with hc | hc
      · rw [gen_calls_fst env fs name prompt c hc]
        exact List.mem_cons_self _ _
      · exact List.mem_cons_of_mem _ (ih _ _ hc)

/-- The head character of an appended string is the head character of a
nonempty left part. -/
theorem data_head_append (s t : String) (c : Char)
    (h : s.data.head? = some c) : (s ++ t).data.head? = some c := by
  rw [String.data_append]
  cases hs : s.data with
  | nil => rw [hs] at h; exact absurd h (by simp)
  | cons a as => rw [hs] at h; simpa using h

/-- Every line `generate_texture` prints starts with a space. -/
theorem gen_log_heads (env : Env) (fs : FS) (name prompt : String) :
    ∀ l ∈ (generate_texture env fs name prompt).log,
      l.data.head? = some ' ' := by
  intro l hl
  have hskip : (skipLine name).data.head? = some ' ' :=
    data_head_append "  [SKIP] " _ ' ' rfl
  have hgen : (genLine name).data.head? = some ' ' :=
    data_head_append "  [GEN] " _ ' ' rfl
  have hok : (okLine name).data.head? = some ' ' :=
    data_head_append "  [OK] Saved " _ ' ' rfl
  have herr : ∀ e, (errLine name e).data.head? = some ' ' := fun e =>
    data_head_append "  [ERR] Failed to generate " _ ' ' rfl
  have hnd : noDataLine.data.head? = some ' ' := rfl
  cases h0 : fsLookup fs (outputPath name) with
  | some b2 =>
      rw [gen_skip env fs name prompt b2 h0] at hl
      simp at hl
      rw [hl]
      exact hskip
  | none =>
      cases hs : env.service prompt with
      | raise e =>
          rw [gen_service_raise env fs name prompt e h0 hs] at hl
          simp at hl
          rcases hl with hl | hl
          · rw [hl]; exact hgen
          · rw [hl]; exact herr e
      | ok d =>
          by_cases hu : truthy d.url
          · cases hf : env.fetch (d.url.getD "") with
            | ok bytes =>
                rw [gen_url_ok env fs name prompt d bytes h0 hs hu hf] at hl
                simp at hl
                rcases hl with hl | hl
                · rw [hl]; exact hgen
                · rw [hl]; exact hok
            | raise e =>
                rw [gen_url_raise env fs name prompt e d h0 hs hu hf] at hl
                simp at hl
                rcases hl with hl | hl
                · rw [hl]; exact hgen
                · rw [hl]; exact herr e
          · rw [Bool.not_eq_true] at hu
            by_cases hb : truthy d.b64_json
            · cases hd : env.b64decode (d.b64_json.getD "") with
              | error e =>
                  rw [gen_b64_decode_raise env fs name prompt e d h0 hs hu hb hd] at hl
                  simp at hl
                  rcases hl with hl | hl
                  · rw [hl]; exact hgen
                  · rw [hl]; exact herr e
              | ok image_data =>
                  cases hw : env.writeErr (outputPath name) image_data with
                  | some e =>
                      rw [gen_b64_write_raise env fs name prompt e d image_data
                            h0 hs hu hb hd hw] at hl
                      simp at hl
                      rcases hl with hl | hl
                      · rw [hl]; exact hgen
                      · rw [hl]; exact herr e
                  | none =>
                      rw [gen_b64_ok env fs name prompt d image_data h0 hs hu hb hd hw] at hl
                      simp at hl
                      rcases hl with hl | hl
                      · rw [hl]; exact hgen
                      · rw [hl]; exact hok
            · rw [Bool.not_eq_true] at hb
              rw [gen_no_data env fs name prompt d h0 hs hu hb] at hl
              simp at hl
              rcases hl with hl | hl
              · rw [hl]; exact hgen
              · rw [hl]; exact hnd

/-- Every line the loop prints starts with a space. -/
theorem processSpecs_log_heads (env : Env) :
    ∀ (specs : List (String × String)) (fs : FS),
      ∀ l ∈ (processSpecs env fs specs).log, l.data.head? = some ' ' := by
  intro specs
  induction specs with
  | nil => intro fs l hl; simp [processSpecs] at hl
  | cons hd tl ih =>
      intro fs l hl
      obtain ⟨name, prompt⟩ := hd
      simp only [processSpecs, List.mem_append] at hl
      rcases hl with hl | hl
      · exact gen_log_heads env fs name prompt l hl
      · exact ih _ l hl

/-- Core of claim C1 at the loop level: a spec whose output file is
already present is recorded already-present, gets a skip notice, keeps
its file bytes, and triggers no generation request. -/
theorem processSpecs_present (env : Env) :
    ∀ (specs : List (String × String)) (fs : FS) (name prompt : String) (b : Bytes),
      (specs.map Prod.fst).Nodup →
      (name, prompt) ∈ specs →
      fsLookup fs (outputPath name) = some b →
      (name, Outcome.alreadyPresent) ∈ (processSpecs env fs specs).outcomes ∧
      skipLine name ∈ (processSpecs env fs specs).log ∧
      fsLookup (processSpecs env fs specs).fs (outputPath name) = some b ∧
      ∀ pr, (name, pr) ∉ (processSpecs env fs specs).calls := by
  intro specs
  induction specs with
  | nil =>
      intro fs name prompt b hnd hmem h
      simp at hmem
  | cons hd tl ih =>
      intro fs name prompt b hnd hmem h
      obtain ⟨n0, p0⟩ := hd
      rw [List.map_cons, List.nodup_cons] at hnd
      rcases List.mem_cons.mp hmem with heq | hmem2
      · injection heq with hn hp
        subst hn
        subst hp
        simp only [processSpecs]
        rw [gen_skip env fs name prompt b h]
        refine ⟨List.mem_cons_self _ _, ?_, ?_, ?_⟩
        · simp
        · exact processSpecs_preserves_present env tl fs _ b h
        · intro pr hpr
          simp only [List.nil_append] at hpr
          have := processSpecs_calls_fst env tl fs (name, pr) hpr
          exact hnd.1 this
      · have hne : n0 ≠ name := by
          intro he
          exact hnd.1 (he ▸ List.mem_map.mpr ⟨(name, prompt), hmem2, rfl⟩)
        have h2 : fsLookup (generate_texture env fs n0 p0).fs (outputPath name) = some b :=
          gen_preserves_present env fs n0 p0 _ b h
        obtain ⟨o1, o2, o3, o4⟩ := ih (generate_texture env fs n0 p0).fs name prompt b hnd.2 hmem2 h2
        simp only [processSpecs]
        refine ⟨List.mem_cons_of_mem _ o1, List.mem_append.mpr (Or.inr o2), o3, ?_⟩
        intro pr hpr
        rcases List.mem_append.mp hpr with hpr | hpr
        · exact hne (gen_calls_fst env fs n0 p0 _ hpr).symm
        · exact o4 pr hpr

/-- With the import succeeding and a truthy credential, `run` proceeds
to the batch loop; the result projections in terms of the loop. -/
theorem run_outcomes (env : Env) (fs : FS)
    (h1 : env.importOk = true) (h2 : truthy env.apiKey = true) :
    (run env fs).outcomes = (processSpecs env fs TEXTURES).outcomes := by
  simp [run, h1, h2]

/-- The final filesystem of a run that reaches the loop. -/
theorem run_fs (env : Env) (fs : FS)
    (h1 : env.importOk = true) (h2 : truthy env.apiKey = true) :
    (run env fs).fs = (processSpecs env fs TEXTURES).fs := by
  simp [run, h1, h2]

/-- The generation requests of a run that reaches the loop. -/
theorem run_calls (env : Env) (fs : FS)
    (h1 : env.importOk = true) (h2 : truthy env.apiKey = true) :
    (run env fs).calls = (processSpecs env fs TEXTURES).calls := by
  simp [run, h1, h2]

/-- The success count of a run that reaches the loop. -/
theorem run_successCount (env : Env) (fs : FS)
    (h1 : env.importOk = true) (h2 : truthy env.apiKey = true) :
    (run env fs).successCount = (processSpecs env fs TEXTURES).successCount := by
  simp [run, h1, h2]

/-- The exit code of a run that reaches the loop. -/
theorem run_exitCode (env : Env) (fs : FS)
    (h1 : env.importOk = true) (h2 : truthy env.apiKey = true) :
    (run env fs).exitCode = 0 := by
  simp [run, h1, h2]

/-- The console log of a run that reaches the loop. -/
theorem run_log (env : Env) (fs : FS)
    (h1 : env.importOk = true) (h2 : truthy env.apiKey = true) :
    (run env fs).log =
      ["Generating zone textures to: " ++ OUTPUT_DIR,
       "Total textures to generate: " ++ toString TEXTURES.length,
       ""] ++ (processSpecs env fs TEXTURES).log ++
      ["", summaryLine (processSpecs env fs TEXTURES).successCount] ++
      (if (processSpecs env fs TEXTURES).successCount < TEXTURES.length then
        [guidanceLine] else []) := by
  simp [run, h1, h2]

/-- The guidance line differs from any string that does not start with
the character S. -/
theorem guidance_ne_of_head (s : String) (c : Char) (hc : c ≠ 'S')
    (h : s.data.head? = some c) : guidanceLine ≠ s := by
  intro he
  rw [← he] at h
  have h2 : some 'S' = some c := by rw [← h]; rfl
  exact hc (Option.some.inj h2).symm

/-- The guidance line about re-running appears in the console log of a
run that reaches the loop exactly when not every spec succeeded. -/
theorem guidance_iff_not_all (env : Env) (fs : FS)
    (h1 : env.importOk = true) (h2 : truthy env.apiKey = true) :
    (guidanceLine ∈ (run env fs).log ↔
      (run env fs).successCount < TEXTURES.length) := by
  rw [run_log env fs h1 h2, run_successCount env fs h1 h2]
  constructor
  · intro hg
    by_contra hlt
    rw [if_neg hlt] at hg
    simp only [List.append_nil, List.mem_append, List.mem_cons,
      List.mem_singleton, List.not_mem_nil, or_false] at hg
    rcases hg with ((hg | hg | hg) | hg) | (hg | hg)
    · exact guidance_ne_of_head _ 'G' (by decide)
        (data_head_append "Generating zone textures to: " _ 'G' rfl) hg
    · exact guidance_ne_of_head _ 'T' (by decide)
        (data_head_append "Total textures to generate: " _ 'T' rfl) hg
    · exact absurd hg (by decide)
    · exact absurd (processSpecs_log_heads env TEXTURES fs _ hg) (by decide)
    · exact absurd hg (by decide)
    · exact guidance_ne_of_head _ 'C' (by decide)
        (data_head_append "Complete! Generated " _ 'C' rfl) hg
  · intro hlt
    rw [if_pos hlt]
    simp

/-- Claim C1: for every texture name whose output file already exists
when that spec is processed, `run` records the outcome already-present,
emits a skip notice, performs no generation request for that name, and
leaves the existing bytes unchanged. -/
theorem C1_present_files_skipped (env : Env) (fs : FS) (name prompt : String)
    (b : Bytes)
    (h1 : env.importOk = true) (h2 : truthy env.apiKey = true)
    (hmem : (name, prompt) ∈ TEXTURES)
    (h : fsLookup fs (outputPath name) = some b) :
    (name, Outcome.alreadyPresent) ∈ (run env fs).outcomes ∧
    skipLine name ∈ (run env fs).log ∧
    fsLookup (run env fs).fs (outputPath name) = some b ∧
    ∀ pr, (name, pr) ∉ (run env fs).calls := by
  have hnd : (TEXTURES.map Prod.fst).Nodup := by decide
  obtain ⟨o1, o2, o3, o4⟩ :=
    processSpecs_present env TEXTURES fs name prompt b hnd hmem h
  rw [run_outcomes env fs h1 h2, run_log env fs h1 h2, run_fs env fs h1 h2,
    run_calls env fs h1 h2]
  refine ⟨o1, ?_, o3, o4⟩
  simp [List.mem_append, o2]

/-- Witness for C1 at a concrete world with `industrial_floor.png`
already on disk. -/
theorem C1_witness :
    ("industrial_floor", Outcome.alreadyPresent) ∈ (run envURL fsPresent1).outcomes ∧
    skipLine "industrial_floor" ∈ (run envURL fsPresent1).log ∧
    fsLookup (run envURL fsPresent1).fs (outputPath "industrial_floor") = some [9] ∧
    ("industrial_floor", "p") ∉ (run envURL fsPresent1).calls := by
  have h := C1_present_files_skipped envURL fsPresent1 "industrial_floor"
    industrialFloorPrompt [9] rfl rfl (by decide) (by decide)
  exact ⟨h.1, h.2.1, h.2.2.1, h.2.2.2 "p"⟩

/-- Claim C2: end-to-end summary counts — 8/8 from an empty directory
with an always-URL service, still 8/8 with three files pre-existing
(5 saved, 3 skipped), 7/8 with exactly one failing spec, and the
re-run guidance is printed exactly when not every spec succeeded. -/
theorem C2_summary_counts :
    ((run envURL []).successCount = 8 ∧ (run envURL []).fs.length = 8 ∧
      summaryLine 8 ∈ (run envURL []).log ∧ guidanceLine ∉ (run envURL []).log) ∧
    ((run envURL fsPre3).successCount = 8 ∧ (run envURL fsPre3).fs.length = 8 ∧
      ((run envURL fsPre3).outcomes.filter
        (fun x => decide (x.2 = Outcome.saved))).length = 5 ∧
      ((run envURL fsPre3).outcomes.filter
        (fun x => decide (x.2 = Outcome.alreadyPresent))).length = 3 ∧
      summaryLine 8 ∈ (run envURL fsPre3).log ∧
      guidanceLine ∉ (run envURL fsPre3).log) ∧
    ((run envOneFail []).successCount = 7 ∧ (run envOneFail []).fs.length = 7 ∧
      fsLookup (run envOneFail []).fs (outputPath "ritual_wall") = none ∧
      summaryLine 7 ∈ (run envOneFail []).log ∧
      guidanceLine ∈ (run envOneFail []).log) ∧
    (∀ env fs, env.importOk = true → truthy env.apiKey = true →
      (guidanceLine ∈ (run env fs).log ↔
        (run env fs).successCount < TEXTURES.length)) :=
  ⟨by decide, by decide, by decide,
   fun env fs h1 h2 => guidance_iff_not_all env fs h1 h2⟩

/-- Witness for C2 instantiating the general guidance equivalence. -/
theorem C2_witness :
    guidanceLine ∈ (run envOneFail []).log ↔
      (run envOneFail []).successCount < TEXTURES.length :=
  C2_summary_counts.2.2.2 envOneFail [] rfl rfl

/-- Claim C3: any exception raised during the generation request, the
URL download, the base64 decode or the file write is caught, logged with
the spec name and error detail, recorded as failed, and every subsequent
spec is still attempted. -/
theorem C3_failures_caught_batch_continues (env : Env) (fs : FS)
    (name prompt e : String)
    (h0 : fsLookup fs (outputPath name) = none) :
    ((env.service prompt = .raise e →
        (generate_texture env fs name prompt).outcome = .failed ∧
        errLine name e ∈ (generate_texture env fs name prompt).log) ∧
     (∀ d, env.service prompt = .ok d → truthy d.url = true →
        env.fetch (d.url.getD "") = .raise e →
        (generate_texture env fs name prompt).outcome = .failed ∧
        errLine name e ∈ (generate_texture env fs name prompt).log) ∧
     (∀ d, env.service prompt = .ok d → truthy d.url = false →
        truthy d.b64_json = true →
        env.b64decode (d.b64_json.getD "") = .error e →
        (generate_texture env fs name prompt).outcome = .failed ∧
        errLine name e ∈ (generate_texture env fs name prompt).log) ∧
     (∀ d image_data, env.service prompt = .ok d → truthy d.url = false →
        truthy d.b64_json = true →
        env.b64decode (d.b64_json.getD "") = .ok image_data →
        env.writeErr (outputPath name) image_data = some e →
        (generate_texture env fs name prompt).outcome = .failed ∧
        errLine name e ∈ (generate_texture env fs name prompt).log)) ∧
    (∀ rest, (processSpecs env fs ((name, prompt) :: rest)).outcomes.map Prod.fst =
        name :: rest.map Prod.fst) := by
  refine ⟨⟨?_, ?_, ?_, ?_⟩, ?_⟩
  · intro hs
    rw [gen_service_raise env fs name prompt e h0 hs]
    exact ⟨rfl, by simp⟩
  · intro d hs hu hf
    rw [gen_url_raise env fs name prompt e d h0 hs hu hf]
    exact ⟨rfl, by simp⟩
  · intro d hs hu hb hd
    rw [gen_b64_decode_raise env fs name prompt e d h0 hs hu hb hd]
    exact ⟨rfl, by simp⟩
  · intro d image_data hs hu hb hd hw
    rw [gen_b64_write_raise env fs name prompt e d image_data h0 hs hu hb hd hw]
    exact ⟨rfl, by simp⟩
  · intro rest
    have h := processSpecs_outcomes_fst env ((name, prompt) :: rest) fs
    simpa using h

/-- Witness for C3: a raising service records failed with the spec name
and error in the log, and the next spec is still processed. -/
theorem C3_witness :
    ((generate_texture envSvcRaise [] "industrial_floor" "p").outcome = .failed ∧
      errLine "industrial_floor" "api error" ∈
        (generate_texture envSvcRaise [] "industrial_floor" "p").log) ∧
    (processSpecs envSvcRaise []
      [("industrial_floor", "p"), ("industrial_wall", "q")]).outcomes.map Prod.fst =
      ["industrial_floor", "industrial_wall"] := by
  have h := C3_failures_caught_batch_continues envSvcRaise [] "industrial_floor"
    "p" "api error" rfl
  exact ⟨h.1.1 rfl, h.2 [("industrial_wall", "q")]⟩

/-- Claim C4: with the credential variable unset (or falsy), the run
reports the configuration error with remediation instructions and stops
with exit status 1 before creating the output directory, before any
generation request and before any network fetch, leaving the filesystem
untouched. -/
theorem C4_missing_credential_aborts (env : Env) (fs : FS)
    (h1 : env.importOk = true) (h2 : truthy env.apiKey = false) :
    run env fs = ⟨1, [keyErrLine1, keyErrLine2], fs, false, 0, [], [], [], []⟩ := by
  simp [run, h1, h2]

/-- Witness for C4 at a concrete world with no credential. -/
theorem C4_witness :
    envNoKey.importOk = true ∧ truthy envNoKey.apiKey = false ∧
    run envNoKey [] = ⟨1, [keyErrLine1, keyErrLine2], [], false, 0, [], [], [], []⟩ :=
  ⟨rfl, rfl, C4_missing_credential_aborts envNoKey [] rfl rfl⟩

/-- Claim C5: a response with neither a truthy URL nor truthy inline
data is recorded failed with the explicit no-image-data error, and no
file is written at the spec's output path. -/
theorem C5_no_image_data (env : Env) (fs : FS) (name prompt : String)
    (d : ImageData)
    (h0 : fsLookup fs (outputPath name) = none)
    (hs : env.service prompt = .ok d)
    (hu : truthy d.url = false)
    (hb : truthy d.b64_json = false) :
    (generate_texture env fs name prompt).outcome = .failed ∧
    noDataLine ∈ (generate_texture env fs name prompt).log ∧
    (generate_texture env fs name prompt).fs = fs ∧
    fsLookup (generate_texture env fs name prompt).fs (outputPath name) = none := by
  rw [gen_no_data env fs name prompt d h0 hs hu hb]
  exact ⟨rfl, by simp, rfl, h0⟩

/-- Witness for C5 at a concrete world whose responses are empty. -/
theorem C5_witness :
    (generate_texture envNoData [] "industrial_floor" "p").outcome = .failed ∧
    noDataLine ∈ (generate_texture envNoData [] "industrial_floor" "p").log ∧
    (generate_texture envNoData [] "industrial_floor" "p").fs = [] ∧
    fsLookup (generate_texture envNoData [] "industrial_floor" "p").fs
      (outputPath "industrial_floor") = none :=
  C5_no_image_data envNoData [] "industrial_floor" "p" ⟨none, none⟩ rfl rfl rfl rfl

/-- Claim C6: the URL form is preferred — with a truthy URL the fetched
bytes are written and the inline data is never decoded; only without a
truthy URL are the inline bytes decoded and written. -/
theorem C6_url_preferred (env : Env) (fs : FS) (name prompt : String)
    (d : ImageData) (bytes image_data : Bytes)
    (h0 : fsLookup fs (outputPath name) = none)
    (hs : env.service prompt = .ok d) :
    (truthy d.url = true → env.fetch (d.url.getD "") = .ok bytes →
      generate_texture env fs name prompt =
        ⟨true, .saved, [genLine name, okLine name],
         fsWrite fs (outputPath name) bytes, [(name, prompt)],
         [d.url.getD ""], []⟩) ∧
    (truthy d.url = false → truthy d.b64_json = true →
      env.b64decode (d.b64_json.getD "") = .ok image_data →
      env.writeErr (outputPath name) image_data = none →
      generate_texture env fs name prompt =
        ⟨true, .saved, [genLine name, okLine name],
         fsWrite fs (outputPath name) image_data, [(name, prompt)], [],
         [d.b64_json.getD ""]⟩) :=
  ⟨fun hu hf => gen_url_ok env fs name prompt d bytes h0 hs hu hf,
   fun hu hb hd hw => gen_b64_ok env fs name prompt d image_data h0 hs hu hb hd hw⟩

/-- Witness for C6: the URL world writes the fetched bytes with no
decode, the inline world decodes and writes the decoded bytes. -/
theorem C6_witness :
    generate_texture envURL [] "neutral_floor" "p" =
      ⟨true, .saved, [genLine "neutral_floor", okLine "neutral_floor"],
       fsWrite [] (outputPath "neutral_floor") [7], [("neutral_floor", "p")],
       ["https://img.example/x.png"], []⟩ ∧
    generate_texture envB64 [] "neutral_wall" "q" =
      ⟨true, .saved, [genLine "neutral_wall", okLine "neutral_wall"],
       fsWrite [] (outputPath "neutral_wall") [65, 66, 67],
       [("neutral_wall", "q")], [], ["QUJD"]⟩ :=
  ⟨(C6_url_preferred envURL [] "neutral_floor" "p"
      ⟨some "https://img.example/x.png", none⟩ [7] [] rfl rfl).1 rfl rfl,
   (C6_url_preferred envB64 [] "neutral_wall" "q"
      ⟨none, some "QUJD"⟩ [] [65, 66, 67] rfl rfl).2 rfl rfl rfl rfl⟩

/-- Claim C7: the spec table is a fixed ordered list of exactly 8
distinct names, and a run that reaches the loop records exactly one
outcome per spec, keyed by the spec names in their fixed order. -/
theorem C7_fixed_specs_partitioned :
    TEXTURES.length = 8 ∧ (TEXTURES.map Prod.fst).Nodup ∧
    ∀ env fs, env.importOk = true → truthy env.apiKey = true →
      (run env fs).outcomes.map Prod.fst = TEXTURES.map Prod.fst ∧
      (run env fs).outcomes.length = 8 := by
  refine ⟨rfl, by decide, fun env fs h1 h2 => ?_⟩
  rw [run_outcomes env fs h1 h2]
  refine ⟨processSpecs_outcomes_fst env TEXTURES fs, ?_⟩
  have h := congrArg List.length (processSpecs_outcomes_fst env TEXTURES fs)
  simpa using h

/-- Witness for C7 at the always-URL world. -/
theorem C7_witness :
    (run envURL []).outcomes.map Prod.fst = TEXTURES.map Prod.fst ∧
    (run envURL []).outcomes.length = 8 :=
  C7_fixed_specs_partitioned.2.2 envURL [] rfl rfl

/-- Counterexample to claim C8 as stated: with the client library import
failing, the credential is present and yet the process exits with an
error status. -/
theorem C8_counterexample :
    truthy envNoImport.apiKey = true ∧ (run envNoImport []).exitCode = 1 :=
  ⟨rfl, rfl⟩

/-- Claim C8 as amended: whenever the client library import succeeds and
the credential is present, the run completes the whole batch and exits
normally, printing the final summary; an error-status exit only happens
when the import fails or the credential is missing. -/
theorem C8_amended_normal_exit (env : Env) (fs : FS) :
    (env.importOk = true → truthy env.apiKey = true →
      (run env fs).exitCode = 0 ∧
      (run env fs).outcomes.length = TEXTURES.length ∧
      summaryLine (run env fs).successCount ∈ (run env fs).log) ∧
    ((run env fs).exitCode ≠ 0 →
      env.importOk = false ∨ truthy env.apiKey = false) := by
  constructor
  · intro h1 h2
    refine ⟨run_exitCode env fs h1 h2, ?_, ?_⟩
    · rw [run_outcomes env fs h1 h2]
      have h := congrArg List.length (processSpecs_outcomes_fst env TEXTURES fs)
      simpa using h
    · rw [run_log env fs h1 h2, run_successCount env fs h1 h2]
      simp
  · intro hne
    cases h1 : env.importOk with
    | false => exact Or.inl rfl
    | true =>
      cases h2 : truthy env.apiKey with
      | false => exact Or.inr rfl
      | true => exact absurd (run_exitCode env fs h1 h2) hne

/-- Witness for the amended C8 at the always-URL world. -/
theorem C8_witness :
    (run envURL []).exitCode = 0 ∧
    (run envURL []).outcomes.length = TEXTURES.length ∧
    summaryLine (run envURL []).successCount ∈ (run envURL []).log :=
  (C8_amended_normal_exit envURL []).1 rfl rfl

/-- Claim C9: when the response has a truthy URL whose fetch raises, the
inline base64 data is never consulted even though it is present, and the
spec is recorded failed with the filesystem unchanged. -/
theorem C9_no_b64_fallback (env : Env) (fs : FS) (name prompt e : String)
    (d : ImageData)
    (h0 : fsLookup fs (outputPath name) = none)
    (hs : env.service prompt = .ok d)
    (hu : truthy d.url = true)
    (hb : truthy d.b64_json = true)
    (hf : env.fetch (d.url.getD "") = .raise e) :
    generate_texture env fs name prompt =
      ⟨false, .failed, [genLine name, errLine name e], fs, [(name, prompt)],
       [d.url.getD ""], []⟩ :=
  gen_url_raise env fs name prompt e d h0 hs hu hf

/-- Witness for C9 at a concrete world whose fetch raises although
inline data is present. -/
theorem C9_witness :
    generate_texture envFetchFail [] "organic_floor" "p" =
      ⟨false, .failed,
       [genLine "organic_floor", errLine "organic_floor" "network down"], [],
       [("organic_floor", "p")], ["https://img.example/x.png"], []⟩ :=
  C9_no_b64_fallback envFetchFail [] "organic_floor" "p" "network down"
    ⟨some "https://img.example/x.png", some "QUJD"⟩ rfl rfl rfl rfl rfl

/-- Claim C10: a credential that is set to the empty string behaves
exactly like an unset credential — the same fatal configuration error
before any work. -/
theorem C10_empty_credential_like_unset (env : Env) (fs : FS) :
    run { env with apiKey := some "" } fs = run { env with apiKey := none } fs ∧
    (env.importOk = true →
      run { env with apiKey := some "" } fs =
        ⟨1, [keyErrLine1, keyErrLine2], fs, false, 0, [], [], [], []⟩) := by
  constructor
  · cases h : env.importOk <;> simp [run, truthy, h]
  · intro h1
    simp [run, truthy, h1]

/-- Witness for C10 at the always-URL world. -/
theorem C10_witness :
    run { envURL with apiKey := some "" } [] = run { envURL with apiKey := none } [] ∧
    run { envURL with apiKey := some "" } [] =
      ⟨1, [keyErrLine1, keyErrLine2], [], false, 0, [], [], [], []⟩ :=
  ⟨(C10_empty_credential_like_unset envURL []).1,
   (C10_empty_credential_like_unset envURL []).2 rfl⟩
